import Mathlib

/-!
Verification of the vumi blinkenlights metrics pipeline
(`vumi/workers/blinkenlights/metrics.py`).

The development shallowly embeds the Python source.  Python integers are
`Nat`/`Int`; Python exceptions are modelled with `Except PyError`; the
mutable dictionaries of the aggregator are association lists.  External
library code used by the source (the `hashlib.md5` digest, `time.timezone`)
is embedded from its published definition (RFC 1321) respectively taken as
an explicit parameter.
-/

set_option maxRecDepth 40000
set_option synthInstance.maxSize 1000
set_option linter.unusedVariables false

namespace Vumi

/-- Python runtime exceptions raised by the code under study. -/
inductive PyError where
  | typeError
  | valueError
  | attributeError
deriving DecidableEq, Repr

/-! ## MD5 (RFC 1321)

`TimeBucketPublisher.find_bucket` feeds `"<metric_name>:<ts_key>"` to
`hashlib.md5` and parses the hex digest as a base-16 integer.  We embed the
MD5 algorithm over byte lists, with 32-bit words represented as `Nat`
reduced modulo `2 ^ 32`.
-/

namespace MD5

/-- Reduce to a 32-bit word. -/
def w32 (x : Nat) : Nat := x % 4294967296

/-- 32-bit addition. -/
def wadd (a b : Nat) : Nat := w32 (a + b)

/-- 32-bit bitwise complement (arguments are < 2 ^ 32). -/
def not32 (x : Nat) : Nat := 4294967295 - w32 x

/-- 32-bit left rotation by `s` (0 ≤ s < 32). -/
def rotl (x s : Nat) : Nat :=
  (w32 x % 2 ^ (32 - s)) * 2 ^ s + w32 x / 2 ^ (32 - s)

/-- The 64 round constants `K[i] = floor(2^32 * abs(sin(i+1)))`. -/
def K : List Nat :=
  [3614090360, 3905402710, 606105819, 3250441966, 4118548399, 1200080426,
   2821735955, 4249261313, 1770035416, 2336552879, 4294925233, 2304563134,
   1804603682, 4254626195, 2792965006, 1236535329, 4129170786, 3225465664,
   643717713, 3921069994, 3593408605, 38016083, 3634488961, 3889429448,
   568446438, 3275163606, 4107603335, 1163531501, 2850285829, 4243563512,
   1735328473, 2368359562, 4294588738, 2272392833, 1839030562, 4259657740,
   2763975236, 1272893353, 4139469664, 3200236656, 681279174, 3936430074,
   3572445317, 76029189, 3654602809, 3873151461, 530742520, 3299628645,
   4096336452, 1126891415, 2878612391, 4237533241, 1700485571, 2399980690,
   4293915773, 2240044497, 1873313359, 4264355552, 2734768916, 1309151649,
   4149444226, 3174756917, 718787259, 3951481745]

/-- The 64 per-round left-rotation amounts. -/
def S : List Nat :=
  [7, 12, 17, 22, 7, 12, 17, 22, 7, 12, 17, 22, 7, 12, 17, 22,
   5, 9, 14, 20, 5, 9, 14, 20, 5, 9, 14, 20, 5, 9, 14, 20,
   4, 11, 16, 23, 4, 11, 16, 23, 4, 11, 16, 23, 4, 11, 16, 23,
   6, 10, 15, 21, 6, 10, 15, 21, 6, 10, 15, 21, 6, 10, 15, 21]

/-- MD5 message padding: append `0x80`, zero bytes up to 56 mod 64, then the
bit length as an 8-byte little-endian integer. -/
def pad (msg : List Nat) : List Nat :=
  let len := msg.length
  let zeros := (120 - (len + 1) % 64) % 64
  msg ++ [128] ++ List.replicate zeros 0 ++
    (List.range 8).map (fun i => (8 * len) / 2 ^ (8 * i) % 256)

/-- Decode a 64-byte chunk into 16 little-endian 32-bit words. -/
def words (chunk : List Nat) : List Nat :=
  (List.range 16).map (fun j =>
    chunk.getD (4 * j) 0 + 256 * chunk.getD (4 * j + 1) 0 +
    65536 * chunk.getD (4 * j + 2) 0 + 16777216 * chunk.getD (4 * j + 3) 0)

/-- One of the 64 MD5 rounds, acting on the `(A, B, C, D)` state. -/
def round (M : List Nat) (st : Nat × Nat × Nat × Nat) (i : Nat) :
    Nat × Nat × Nat × Nat :=
  let (a, b, c, d) := st
  let fg : Nat × Nat :=
    if i < 16 then ((b &&& c) ||| (not32 b &&& d), i)
    else if i < 32 then ((d &&& b) ||| (not32 d &&& c), (5 * i + 1) % 16)
    else if i < 48 then (b ^^^ c ^^^ d, (3 * i + 5) % 16)
    else (c ^^^ (b ||| not32 d), 7 * i % 16)
  let f := wadd (wadd fg.1 a) (wadd (K.getD i 0) (M.getD fg.2 0))
  (d, wadd b (rotl f (S.getD i 0)), b, c)

/-- Compress one 64-byte chunk into the running state. -/
def compress (st : Nat × Nat × Nat × Nat) (chunk : List Nat) :
    Nat × Nat × Nat × Nat :=
  let M := words chunk
  let (a, b, c, d) := st
  let r := (List.range 64).foldl (round M) (a, b, c, d)
  (wadd a r.1, wadd b r.2.1, wadd c r.2.2.1, wadd d r.2.2.2)

/-- Process a padded message, 64 bytes per step; `fuel` counts the chunks
remaining (structural recursion so that the kernel can evaluate it). -/
def process : Nat → List Nat → Nat × Nat × Nat × Nat → Nat × Nat × Nat × Nat
  | 0, _, st => st
  | n + 1, bs, st => process n (bs.drop 64) (compress st (bs.take 64))

/-- The 16 digest bytes: the four state words serialised little-endian. -/
def digestBytes (msg : List Nat) : List Nat :=
  let padded := pad msg
  let st := process (padded.length / 64) padded
    (1732584193, 4023233417, 2562383102, 271733878)
  let le4 := fun (x : Nat) =>
    [x % 256, x / 256 % 256, x / 65536 % 256, x / 16777216 % 256]
  le4 st.1 ++ le4 st.2.1 ++ le4 st.2.2.1 ++ le4 st.2.2.2

/-- `int(md5(msg).hexdigest(), 16)`: the digest bytes read as one
big-endian 128-bit integer (the hex string lists the bytes in order). -/
def digestInt (msg : List Nat) : Nat :=
  (digestBytes msg).foldl (fun acc b => 256 * acc + b) 0

end MD5

/-- ASCII bytes of a string (all strings in play are ASCII). -/
def strBytes (s : String) : List Nat := s.toList.map Char.toNat

/-- Association-list lookup, modelling Python `dict.get`. -/
def alookup {α β : Type} [DecidableEq α] : List (α × β) → α → Option β
  | [], _ => none
  | (k, v) :: rest, key => if k = key then some v else alookup rest key

/-- Association-list update, modelling Python `dict[key] = val`. -/
def aupdate {α β : Type} [DecidableEq α] : List (α × β) → α → β → List (α × β)
  | [], key, val => [(key, val)]
  | (k, v) :: rest, key, val =>
    if k = key then (k, val) :: rest else (k, v) :: aupdate rest key val

/-- Association-list removal, modelling Python `del dict[key]`. -/
def aerase {α β : Type} [DecidableEq α] : List (α × β) → α → List (α × β)
  | [], _ => []
  | (k, v) :: rest, key =>
    if k = key then aerase rest key else (k, v) :: aerase rest key

/-! ## TimeBucketPublisher (metrics.py lines 86-124) -/

namespace TimeBucketPublisher

/-- Lines 106-108:

    def find_bucket(self, metric_name, ts_key):
        md5 = hashlib.md5("%s:%d" % (metric_name, ts_key))
        return int(md5.hexdigest(), 16) / self.buckets

`self.buckets` is the configured bucket count (a Python int, see
`MetricTimeBucket.startWorker` line 149), so the Python 2 `/` is floor
division. -/
def find_bucket (buckets : Nat) (metric_name : String) (ts_key : Nat) : Nat :=
  MD5.digestInt (strBytes (metric_name ++ ":" ++ toString ts_key)) / buckets

/-- Lines 110-117, the grouping loop of `TimeBucketPublisher.publish_metric`:

    timestamp_buckets = {}
    for timestamp, value in values:
        ts_key = timestamp / self.bucket_size
        ts_bucket = timestamp_buckets.get(ts_key)
        if ts_bucket is None:
            ts_bucket[ts_key] = []
        ts_bucket.append((timestamp, value))

When `ts_key` is not yet present, `timestamp_buckets.get` returns `None` and
line 116 subscript-assigns into `None`, raising
`TypeError: NoneType object does not support item assignment` before
anything is stored.  (The worker coerces `bucket_size` to `float`, making
`timestamp / self.bucket_size` true division; we use integer division here,
which does not affect the crash on the first iteration.)  When the key is
present, `ts_bucket.append` mutates the list aliased inside the dict. -/
def bucket_loop (bucket_size : Nat) :
    List (Nat × List (Nat × Int)) → List (Nat × Int) →
      Except PyError (List (Nat × List (Nat × Int)))
  | tb, [] => .ok tb
  | tb, (t, v) :: rest =>
    let ts_key := t / bucket_size
    match alookup tb ts_key with
    | none => .error .typeError
    | some b => bucket_loop bucket_size (aupdate tb ts_key (b ++ [(t, v)])) rest

/-- Lines 110-124, `TimeBucketPublisher.publish_metric`: group `values` by
time bucket (lines 111-117), then for each group publish one MetricMessage
carrying the single datapoint `(metric_name, aggregates, ts_bucket)` to
routing key `"bucket.%d" % find_bucket(metric_name, ts_key)`.  The result
lists the published `(routing_key, datapoint)` pairs. -/
def publish_metric (buckets bucket_size : Nat) (metric_name : String)
    (aggregates : List String) (values : List (Nat × Int)) :
    Except PyError (List (String × String × List String × List (Nat × Int))) :=
  match bucket_loop bucket_size [] values with
  | .error e => .error e
  | .ok tb => .ok (tb.map (fun p =>
      ("bucket." ++ toString (find_bucket buckets metric_name p.1),
       metric_name, aggregates, p.2)))

end TimeBucketPublisher

/-! ## MetricAggregator (metrics.py lines 159-232) -/

namespace MetricAggregator

/-- One entry of the per-bucket metrics dict: `(aggregate_set, values)`
(line 225: `metric = metrics[metric_name] = (set(), [])`). -/
abbrev MetricEntry := List String × List (Nat × Int)

/-- The per-bucket mapping `metric_name -> (aggregate_set, values)`. -/
abbrev MetricsDict := List (String × MetricEntry)

/-- The aggregator state (line 182): `ts_key -> { metric_name -> entry }`. -/
abbrev Buckets := List (Nat × MetricsDict)

/-- Lines 216-228, `MetricAggregator.consume_metric`:

    def consume_metric(self, metric_name, aggregates, values):
        if not values:
            return
        ts_key = values[0] / self.bucket_size
        ...

For empty `values` the method returns at line 218 without touching state.
For non-empty `values`, line 219 divides `values[0]` — a whole
`(timestamp, value)` pair, not its timestamp — by `bucket_size`, raising
`TypeError: unsupported operand type(s)` before any state is read or
written; lines 220-228 (bucket creation, aggregator-set union, value
append) are unreachable. -/
def consume_metric (bucket_size : Nat) (st : Buckets) (metric_name : String)
    (aggregates : List String) (values : List (Nat × Int)) :
    Except PyError Buckets :=
  match values with
  | [] => .ok st
  | _ :: _ => .error .typeError

/-- Lines 204-209, the aggregate-building loop of `check_buckets`:

    aggregates = []
    for metric_name, (agg_set, values) in self.buckets[ts_key]:
        for agg_name in agg_set:
            agg_metric = "%s.%s" % (metric_name, agg_name)
            agg_value = Aggregator.from_name(agg_name)(values)
            aggregates.append(agg_metric, agg_value)

Iterating the metrics dict at line 205 yields its keys (metric-name
strings); unpacking a string into `metric_name, (agg_set, values)` raises
`ValueError` on the first entry (and, were it to get further, line 209
passes two positional arguments to `list.append`, a `TypeError`).  So the
loop succeeds — with an empty result — exactly when the dict is empty. -/
def build_aggregates (metrics : MetricsDict) :
    Except PyError (List (String × Int)) :=
  match metrics with
  | [] => .ok []
  | _ :: _ => .error .valueError

/-- Outcome of one `check_buckets` pass: the surviving bucket map, the list
of `(metric, timestamp, value)` datapoints handed to
`publish_aggregate` (lines 211-213), and the exception that escaped, if
any.  When an exception escapes, the deletions already performed persist
(the key iteration walks a `keys()` snapshot). -/
structure CheckResult where
  buckets : Buckets
  emitted : List (String × Int × Int)
  err : Option PyError
deriving DecidableEq, Repr

/-- Lines 198-214, the key loop of `check_buckets`, iterating a snapshot of
the bucket keys: keys strictly below `prev_ts_key` are warned about and
deleted (lines 199-202); a key equal to `prev_ts_key` is closed — its
aggregates are built (crashing on any non-empty metrics dict, see
`build_aggregates`), published with timestamp `prev_ts_key * bucket_size`
(lines 211-213, `prev_ts` from line 197), and the bucket deleted (line
214); later keys are left untouched. -/
def check_loop (bucket_size : Nat) (prev : Int) :
    List Nat → Buckets → List (String × Int × Int) → CheckResult
  | [], st, acc => ⟨st, acc, none⟩
  | k :: ks, st, acc =>
    if (k : Int) < prev then check_loop bucket_size prev ks (aerase st k) acc
    else if (k : Int) = prev then
      match alookup st k with
      | none => check_loop bucket_size prev ks st acc
      | some metrics =>
        match build_aggregates metrics with
        | .error e => ⟨st, acc, some e⟩
        | .ok aggs =>
          check_loop bucket_size prev ks (aerase st k)
            (acc ++ aggs.map (fun p => (p.1, prev * bucket_size, p.2)))
    else check_loop bucket_size prev ks st acc

/-- Lines 193-214, `MetricAggregator.check_buckets`, at wall-clock time
`now` (seconds): `prev_ts_key = (int(time.time()) / self.bucket_size) - 1`
(line 196; `bucket_size` is coerced to `float` at line 177 — we model the
int-valued case, where Python's division agrees with integer division),
then the key loop above. -/
def check_buckets (bucket_size now : Nat) (st : Buckets) : CheckResult :=
  check_loop bucket_size ((now / bucket_size : Nat) - 1) (st.map Prod.fst) st []

/-- Attributes resolvable on a `MetricAggregator` instance at the moment
line 188 (`self._task = LoopingCall(self._check_buckets)`) evaluates its
right-hand side: the methods of the class body (lines 172-232) plus the
instance attributes already assigned by `startWorker` (lines 174-186).
The base `vumi.service.Worker` supplies only broker/lifecycle scaffolding
(out of scope per the spec) and no bucket-checking attribute. -/
def resolvable_attrs : List String :=
  ["startWorker", "check_buckets", "consume_metric", "stopWorker",
   "config", "bucket_size", "buckets", "publisher", "consumer"]

/-- Python attribute lookup on the instance described above. -/
def getattr (name : String) : Except PyError String :=
  if resolvable_attrs.contains name then .ok name else .error .attributeError

/-- Line 188: the callback `startWorker` hands to `LoopingCall` is the
result of evaluating `self._check_buckets`. -/
def startWorker_tick_target : Except PyError String :=
  getattr ("_check_buckets")

/-- Lines 230-232, `MetricAggregator.stopWorker`: stop the looping task,
then run one final `check_buckets` pass at the current wall-clock time.
(In any actual lifetime `self._task` was never assigned, since line 188
raises before the assignment; the close pass is modelled on its own.) -/
def stopWorker (bucket_size now : Nat) (st : Buckets) : CheckResult :=
  check_buckets bucket_size now st

/-! ### Process-lifetime trace semantics

One aggregator process interleaves `consume_metric` handler invocations and
`check_buckets` ticks, single-threaded (spec section 5); the wall clock
never decreases.  The observable history records every datapoint handed to
`publish_aggregate`. -/

/-- Aggregator process state: the bucket map, all aggregate datapoints
`(metric, timestamp, value)` published so far, and the wall-clock time of
the most recent event. -/
structure TState where
  buckets : Buckets
  published : List (String × Int × Int)
  clock : Nat
deriving Repr

/-- Effect of one `consume_metric` delivery on the process state.  An
escaping exception leaves the state as it was: the crash at line 219 occurs
before any read or write of `self.buckets`. -/
def applyConsume (bucket_size : Nat) (s : TState) (metric_name : String)
    (aggregates : List String) (values : List (Nat × Int)) : TState :=
  match consume_metric bucket_size s.buckets metric_name aggregates values with
  | .ok b => { s with buckets := b }
  | .error _ => s

/-- Effect of one `check_buckets` tick at wall-clock time `now`: deletions
performed before any escaping exception persist, and the datapoints handed
to `publish_aggregate` are appended to the history. -/
def applyTick (bucket_size : Nat) (s : TState) (now : Nat) : TState :=
  let r := check_buckets bucket_size now s.buckets
  ⟨r.buckets, s.published ++ r.emitted, now⟩

/-- The states one aggregator process (with fixed `bucket_size`) can reach
from startup through any interleaving of deliveries and ticks with
non-decreasing wall-clock time. -/
inductive Reachable (bucket_size : Nat) : TState → Prop where
  | init : Reachable bucket_size ⟨[], [], 0⟩
  | consume {s : TState} (h : Reachable bucket_size s) (metric_name : String)
      (aggregates : List String) (values : List (Nat × Int)) :
      Reachable bucket_size (applyConsume bucket_size s metric_name aggregates values)
  | tick {s : TState} (h : Reachable bucket_size s) (now : Nat)
      (hnow : s.clock ≤ now) :
      Reachable bucket_size (applyTick bucket_size s now)

end MetricAggregator

/-! ## GraphitePublisher (metrics.py lines 235-252) -/

namespace GraphitePublisher

/-- Lines 244-248, `GraphitePublisher._local_timestamp`: returns
`timestamp - time.timezone`.  `time.timezone` (the `timezone` parameter
here) is the offset of the local non-DST timezone in seconds *west* of
UTC: negative east of Greenwich, e.g. `-7200` for UTC+2. -/
def local_timestamp (timezone : Int) (timestamp : Int) : Int :=
  timestamp - timezone

/-- Python `"%f" % v` for an integer-valued double: the decimal integer
followed by six zero fractional digits.  (The embedding restricts metric
values to integers, which are exact in binary64; this suffices for every
value the claims mention.) -/
def format_f (v : Int) : String := toString v ++ ".000000"

/-- Lines 250-252, `GraphitePublisher.publish_metric`: converts the
timestamp to local time and publishes the raw body
`"%f %d" % (value, timestamp)` with the metric name as routing key.
The result is the `(body, routing_key)` pair. -/
def publish_metric (timezone : Int) (metric : String) (value : Int)
    (timestamp : Int) : String × String :=
  (format_f value ++ " " ++ toString (local_timestamp timezone timestamp),
   metric)

end GraphitePublisher

/-! ## Theorems -/

/-- Sanity anchor for the MD5 embedding: the digest integer of
`"foo.bar:17"` matches the published MD5 value
`735c65171a3514661d9d2608bbb32ee6` (spec section 6's hashing reference
input). -/
theorem md5_reference_vector :
    MD5.digestInt (strBytes ("foo.bar:17")) =
      153340961179979015827381204580195053286 := by decide

/-- `build_aggregates` succeeds only with an empty result: the loop body of
lines 205-209 raises on every entry of a non-empty metrics dict. -/
theorem build_aggregates_ok_nil (m : MetricAggregator.MetricsDict)
    (l : List (String × Int))
    (h : MetricAggregator.build_aggregates m = .ok l) : l = [] := by
  cases m with
  | nil =>
      simpa [MetricAggregator.build_aggregates] using h.symm
  | cons e rest =>
      simp [MetricAggregator.build_aggregates] at h

/-- The key loop of `check_buckets` never adds to the emission accumulator:
every close either finds an empty metrics dict (emitting nothing) or
raises before reaching the publish loop. -/
theorem check_loop_emitted_eq (bucket_size : Nat) (prev : Int)
    (ks : List Nat) :
    ∀ (st : MetricAggregator.Buckets) (acc : List (String × Int × Int)),
      (MetricAggregator.check_loop bucket_size prev ks st acc).emitted = acc := by
  induction ks with
  | nil => intro st acc; rfl
  | cons k ks ih =>
      intro st acc
      simp only [MetricAggregator.check_loop]
      split
      · exact ih _ _
      · split
        · split
          · exact ih _ _
          · split
            · rfl
            · next aggs heq =>
                rw [build_aggregates_ok_nil _ _ heq]
                simpa using ih _ _
        · exact ih _ _

/-- A `check_buckets` pass hands nothing to `publish_aggregate`, whatever
the resident buckets and the wall-clock time. -/
theorem check_buckets_emitted_nil (bucket_size now : Nat)
    (st : MetricAggregator.Buckets) :
    (MetricAggregator.check_buckets bucket_size now st).emitted = [] :=
  check_loop_emitted_eq bucket_size _ _ st []

/-- A `consume_metric` delivery never changes the published history. -/
theorem applyConsume_published (bucket_size : Nat)
    (s : MetricAggregator.TState) (metric_name : String)
    (aggregates : List String) (values : List (Nat × Int)) :
    (MetricAggregator.applyConsume bucket_size s metric_name aggregates
      values).published = s.published := by
  unfold MetricAggregator.applyConsume
  split <;> rfl

/-- Every reachable aggregator state has an empty published history. -/
theorem reachable_published_nil (bucket_size : Nat)
    (s : MetricAggregator.TState)
    (h : MetricAggregator.Reachable bucket_size s) : s.published = [] := by
  induction h with
  | init => rfl
  | consume h metric_name aggregates values ih =>
      rw [applyConsume_published]; exact ih
  | tick h now hnow ih =>
      show _ ++ _ = _
      rw [ih, check_buckets_emitted_nil]; rfl

/-- C7: within one MetricAggregator process lifetime — any interleaving of
`consume_metric` deliveries and `check_buckets` ticks with non-decreasing
wall-clock time — no two published aggregate datapoints share both the
metric name and the emission timestamp (hence no two share the
`(metric_name + "." + agg_tag, bucket_key)` pair).  The invariant holds
vacuously: the line-219 crash keeps the bucket map empty and the line-205
crash aborts every non-trivial close, so nothing is ever published. -/
theorem aggregator_at_most_once_emission (bucket_size : Nat)
    (s : MetricAggregator.TState)
    (h : MetricAggregator.Reachable bucket_size s) :
    s.published.Pairwise (fun a b => a.1 ≠ b.1 ∨ a.2.1 ≠ b.2.1) := by
  rw [reachable_published_nil bucket_size s h]
  exact List.Pairwise.nil

/-- Witness for C7: a concrete two-event lifetime (one delivery at clock 0,
one tick at clock 20). -/
theorem aggregator_at_most_once_emission_witness :
    (MetricAggregator.applyTick 5
        (MetricAggregator.applyConsume 5 ⟨[], [], 0⟩ ("m") ["sum"] [(10, 1)])
        20).published.Pairwise (fun a b => a.1 ≠ b.1 ∨ a.2.1 ≠ b.2.1) :=
  aggregator_at_most_once_emission 5 _
    (MetricAggregator.Reachable.tick
      (MetricAggregator.Reachable.consume MetricAggregator.Reachable.init
        ("m") ["sum"] [(10, 1)])
      20 (by decide))

/-- C1: refuted as stated; the code divides instead of reducing modulo the
bucket count.  `find_bucket("foo.bar", 17)` with 1 bucket returns the full
128-bit digest integer (the claim requires 0), and with 20 buckets the
result is not below 20. -/
theorem find_bucket_divides_not_mod :
    TimeBucketPublisher.find_bucket 1 ("foo.bar") 17 =
        153340961179979015827381204580195053286 ∧
      TimeBucketPublisher.find_bucket 1 ("foo.bar") 17 ≠ 0 ∧
      ¬ TimeBucketPublisher.find_bucket 20 ("foo.bar") 17 < 20 := by
  refine ⟨by decide, by decide, by decide⟩

/-- C2: refuted as stated; on the very first value the grouping loop
subscript-assigns into `None` (line 116), so `publish_metric` raises
`TypeError` and publishes nothing. -/
theorem publish_metric_crashes_on_first_value :
    TimeBucketPublisher.publish_metric 4 5 ("m") ["sum"] [(10, 1)] =
      .error PyError.typeError := rfl

/-- C3: refuted as stated; `consume_metric` divides `values[0]` — the whole
`(timestamp, value)` pair — by `bucket_size` (line 219), raising
`TypeError` before any bucket entry is read or created. -/
theorem consume_metric_crashes_on_values :
    MetricAggregator.consume_metric 5 [] ("m") ["sum"] [(10, 1)] =
      .error PyError.typeError := rfl

/-- C4: refuted as stated; at `now = 15`, `bucket_size = 5`
(`now_key = 3`), a stale bucket (key 0) is removed without emission as
claimed, but closing the non-empty bucket with key 2 raises at line 205
before anything is published or deleted: the pass emits nothing and leaves
buckets 2 and 3 resident. -/
theorem check_buckets_close_pass_crashes :
    MetricAggregator.check_buckets 5 15
        [(0, [(("old"), ([], [(1, 1)]))]),
         (2, [(("m"), (["sum"], [(10, 1), (11, 2), (12, 3)]))]),
         (3, [])] =
      ⟨[(2, [(("m"), (["sum"], [(10, 1), (11, 2), (12, 3)]))]), (3, [])],
        [], some PyError.valueError⟩ := rfl

/-- C5 counterexample: for aggregate `("m.sum", 42.0, 1700000000)` in a
UTC+2 deployment (`time.timezone = -7200`), the published body is not the
`"42.000000 1699992800"` the claim requires. -/
theorem graphite_body_not_timestamp_minus_offset :
    (GraphitePublisher.publish_metric (-7200) ("m.sum") 42 1700000000).1 ≠
      ("42.000000 1699992800") := by decide

/-- C5 amended: `publish_metric` publishes on routing key `metric` the body
`"<value:%f> <timestamp - time.timezone:%d>"`, where `time.timezone` is
the local offset in seconds *west* of UTC (negative east of Greenwich); in
a UTC+2 deployment the example body is `"42.000000 1700007200"`. -/
theorem graphite_publish_local_time :
    (∀ (timezone ts v : Int) (metric : String),
        GraphitePublisher.publish_metric timezone metric v ts =
          (GraphitePublisher.format_f v ++ " " ++ toString (ts - timezone),
            metric)) ∧
      GraphitePublisher.publish_metric (-7200) ("m.sum") 42 1700000000 =
        (("42.000000 1700007200"), ("m.sum")) :=
  ⟨fun _ _ _ _ => rfl, rfl⟩

/-- C6: refuted as stated; a late datapoint (`ts_key = 7` at
`now_key = 10`) is not dropped with a warning — `consume_metric` raises
`TypeError` at line 219 like on every non-empty delivery (it contains no
lateness check at all; stale cleanup lives in `check_buckets`).  The
bucket state is indeed left unchanged, because the crash precedes any
mutation. -/
theorem consume_metric_late_crashes :
    MetricAggregator.consume_metric 5 [(9, [])] ("m") ["sum"] [(35, 1)] =
        .error PyError.typeError ∧
      MetricAggregator.applyConsume 5 ⟨[(9, [])], [], 50⟩ ("m") ["sum"]
          [(35, 1)] =
        ⟨[(9, [])], [], 50⟩ :=
  ⟨rfl, rfl⟩

/-- C8: refuted as stated; line 188 evaluates `self._check_buckets`, but no
such attribute is resolvable (the method is named `check_buckets`), so
`startWorker` raises `AttributeError` and no recurring task is ever
scheduled. -/
theorem startWorker_tick_target_missing :
    MetricAggregator.startWorker_tick_target = .error PyError.attributeError ∧
      MetricAggregator.getattr ("check_buckets") = .ok ("check_buckets") :=
  ⟨rfl, rfl⟩

/-- C9: refuted as stated; the final close pass run by `stopWorker` (line
232) raises at line 205 when a non-empty bucket with `ts_key = now_key - 1`
is resident: its aggregates are not emitted and it is not removed (the
open bucket `now_key` is indeed left unemitted).  Line 231 additionally
dereferences `self._task`, which a real lifetime never assigns. -/
theorem stopWorker_close_pass_crashes :
    MetricAggregator.stopWorker 5 15
        [(2, [(("m"), (["sum"], [(10, 1)]))]), (3, [])] =
      ⟨[(2, [(("m"), (["sum"], [(10, 1)]))]), (3, [])], [],
        some PyError.valueError⟩ := rfl

/-- C10: confirmed; a delivery with an empty `values` list returns at line
218 leaving the bucket state exactly as it was, for every bucket size,
state, metric name and aggregate set. -/
theorem consume_metric_empty_values_noop (bucket_size : Nat)
    (st : MetricAggregator.Buckets) (metric_name : String)
    (aggregates : List String) :
    MetricAggregator.consume_metric bucket_size st metric_name aggregates
        [] =
      .ok st := rfl

/-- Witness for C10 at a concrete non-trivial state. -/
theorem consume_metric_empty_values_noop_witness :
    MetricAggregator.consume_metric 5
        [(2, [(("m"), (["sum"], [(10, 1)]))])] ("x") ["avg"] [] =
      .ok [(2, [(("m"), (["sum"], [(10, 1)]))])] :=
  consume_metric_empty_values_noop 5
    [(2, [(("m"), (["sum"], [(10, 1)]))])] ("x") ["avg"]

end Vumi
